import Mathlib

/-!
Verification of the slot-resolution and recurring-event-generation engine of
the VitAp timetable scheduler (`streamlit_app.py`).

The engine is shallowly embedded: Python strings are Lean `String`s, the
string primitives used by the source (`strip`, `upper`, `split`, `in`,
`startswith`, `int(...)`) are re-implemented structurally over `List Char` so
that every definition evaluates inside the kernel, dates are modelled as
integer day numbers with the convention that day `d` has Python weekday
`d % 7` (Monday = 0, matching `datetime.date.weekday`), and the Google
Calendar side effects (`st.warning`, `st.error`, `service.events().insert`)
are modelled as data: emitted event bodies are collected in a list, warnings
become `WarnMsg` values, and a caught exception becomes the `raised` flag of
a row result.
-/

namespace TTSched

/-! ## Python string primitives, modelled structurally -/

/-- Characters treated as whitespace by Python `str.strip()` (ASCII subset). -/
def isPySpace (c : Char) : Bool :=
  c = ' ' || c = '\t' || c = '\n' || c = '\x0d' || c = '\x0b' || c = '\x0c'

/-- Python `str.strip()`. -/
def pyStrip (s : String) : String :=
  String.mk (((s.data.dropWhile isPySpace).reverse.dropWhile isPySpace).reverse)

/-- Python `str.upper()` (ASCII). -/
def pyUpper (s : String) : String :=
  String.mk (s.data.map Char.toUpper)

/-- Split a character list on a separator character; models Python
`str.split(sep)` for a one-character separator. -/
def splitCharsOn (sep : Char) : List Char → List (List Char)
  | [] => [[]]
  | c :: rest =>
    let r := splitCharsOn sep rest
    if c = sep then [] :: r
    else
      match r with
      | [] => [[c]]
      | g :: gs => (c :: g) :: gs

/-- Python `s.split(sep)` for a one-character separator. -/
def pySplit (sep : Char) (s : String) : List String :=
  (splitCharsOn sep s.data).map String.mk

/-- Is `pat` a prefix of `l` (character lists)? -/
def charsPre : List Char → List Char → Bool
  | [], _ => true
  | _ :: _, [] => false
  | a :: as, b :: bs => a = b && charsPre as bs

/-- Python `s.startswith(pat)`. -/
def pyStartsWith (s pat : String) : Bool :=
  charsPre pat.data s.data

/-- Does `pat` occur in `l` (character lists)? -/
def charsHas (pat : List Char) : List Char → Bool
  | [] => charsPre pat []
  | c :: rest => charsPre pat (c :: rest) || charsHas pat rest

/-- Python `pat in s` (substring containment). -/
def pyContains (s pat : String) : Bool :=
  charsHas pat.data s.data

/-- Digits of a character list, read as a natural number; `none` when the
list is empty or holds a non-digit. -/
def digitsToNat? (l : List Char) : Option Nat :=
  if l.isEmpty then none
  else if l.all Char.isDigit then
    some (l.foldl (fun a c => a * 10 + (c.toNat - 48)) 0)
  else none

/-- Python `int(s)`: optional surrounding whitespace, optional sign,
then decimal digits; anything else raises (here: `none`). -/
def parseInt? (s : String) : Option Int :=
  match (pyStrip s).data with
  | '-' :: rest => (digitsToNat? rest).map (fun n => -(n : Int))
  | '+' :: rest => (digitsToNat? rest).map (fun n => (n : Int))
  | l => (digitsToNat? l).map (fun n => (n : Int))

/-- `sh, sm = map(int, s.split(":"))` — succeeds only when the split yields
exactly two integer-parsable parts; otherwise Python raises a `ValueError`. -/
def parseTime? (s : String) : Option (Int × Int) :=
  match (pySplit ':' s).map parseInt? with
  | [some h, some m] => some (h, m)
  | _ => none

/-! ## Dates

A calendar date is modelled as an integer day number; the epoch is chosen on
a Monday so that Python's `date.weekday()` (Monday = 0 … Sunday = 6) is
`d % 7`.  `timedelta(days = n)` addition is integer addition. -/

/-- Python `date.weekday()` under the day-number model. -/
def dateWeekday (d : Int) : Int := d % 7

/-- `get_first_date_on_or_after` from the source, verbatim:
`days_ahead = target_weekday - start_date.weekday(); if days_ahead < 0:
days_ahead += 7; return start_date + timedelta(days=days_ahead)`. -/
def get_first_date_on_or_after (start_date target_weekday : Int) : Int :=
  let days_ahead := target_weekday - dateWeekday start_date
  let days_ahead := if days_ahead < 0 then days_ahead + 7 else days_ahead
  start_date + days_ahead

/-! ## Slot catalogs (verbatim from the source) -/

/-- Association-list lookup with decidable string equality; models Python
`dict.get` / `in` on the literal catalog dictionaries (keys are unique). -/
def dictGet {α : Type} (k : String) : List (String × α) → Option α
  | [] => none
  | (k', v) :: rest => if k = k' then some v else dictGet k rest

/-- `theory_mapping` from the source. -/
def theory_mapping : List (String × List (String × String × String)) :=
  [("A1", [("TU", "09:00", "09:50"), ("SA", "12:00", "12:50")]),
   ("A2", [("TU", "15:00", "15:50"), ("SA", "16:00", "16:50")]),
   ("B1", [("TU", "10:00", "10:50"), ("WE", "12:00", "12:50")]),
   ("B2", [("WE", "17:00", "17:50"), ("TH", "14:00", "14:50")]),
   ("C1", [("TU", "11:00", "11:50"), ("SA", "10:00", "10:50")]),
   ("C2", [("TU", "17:00", "17:50"), ("FR", "14:00", "14:50")]),
   ("D1", [("TU", "12:00", "12:50"), ("WE", "09:00", "09:50")]),
   ("D2", [("WE", "14:00", "14:50"), ("SA", "14:00", "14:50")]),
   ("E1", [("WE", "11:00", "11:50"), ("SA", "09:00", "09:50")]),
   ("E2", [("TU", "14:00", "14:50"), ("WE", "15:00", "15:50")]),
   ("F1", [("WE", "10:00", "10:50"), ("FR", "11:00", "11:50")]),
   ("F2", [("WE", "16:00", "16:50"), ("TH", "15:00", "15:50")]),
   ("G1", [("FR", "10:00", "10:50"), ("SA", "11:00", "11:50")]),
   ("G2", [("TU", "16:00", "16:50"), ("FR", "16:00", "16:50")]),
   ("TA1", [("TH", "11:00", "11:50")]),
   ("TA2", [("TH", "17:00", "17:50")]),
   ("TB1", [("FR", "09:00", "09:50")]),
   ("TB2", [("FR", "15:00", "15:50")]),
   ("TC1", [("TH", "09:00", "09:50")]),
   ("TC2", [("SA", "15:00", "15:50")]),
   ("TD1", [("TH", "10:00", "10:50")]),
   ("TD2", [("TH", "16:00", "16:50")]),
   ("TE1", [("FR", "12:00", "12:50")]),
   ("TE2", [("FR", "17:00", "17:50")]),
   ("TF1", [("TH", "08:00", "08:50")]),
   ("TF2", [("TH", "18:00", "18:50")]),
   ("TG1", [("WE", "08:00", "08:50")]),
   ("TG2", [("SA", "18:00", "18:50")]),
   ("TAA1", [("FR", "10:00", "10:50")]),
   ("TBB1", [("SA", "11:00", "11:50")]),
   ("TCC1", [("FR", "08:00", "08:50")]),
   ("TDD1", [("SA", "08:00", "08:50")]),
   ("TEE1", [("TU", "08:00", "08:50")]),
   ("TFF1", [("TH", "12:00", "12:50")]),
   ("TAA2", [("FR", "16:00", "16:50")]),
   ("TBB2", [("TU", "16:00", "16:50")]),
   ("TCC2", [("WE", "18:00", "18:50")]),
   ("TDD2", [("TU", "18:00", "18:50")]),
   ("TEE2", [("TH", "18:00", "18:50")]),
   ("SC2", [("WE", "11:00", "11:50")]),
   ("CLUBS", [("TH", "12:00", "12:50"), ("SA", "17:00", "17:50"), ("SA", "18:00", "18:50")]),
   ("ECS", [("TH", "12:00", "12:50"), ("SA", "17:00", "17:50"), ("SA", "18:00", "18:50")]),
   ("SD2", [("FR", "12:00", "12:50")]),
   ("SE2", [("SA", "09:00", "09:50")]),
   ("SE1", [("TU", "14:00", "14:50")]),
   ("SC1", [("WE", "15:00", "15:50")]),
   ("SD1", [("FR", "17:00", "17:50")]),
   ("SF1", [("SA", "17:00", "17:50")])]

/-- `lab_mapping` from the source. -/
def lab_mapping : List (String × List (String × String × String)) :=
  [("L1+L2", [("TU", "08:00", "09:40")]),
   ("L2+L3", [("TU", "09:00", "10:40")]),
   ("L3+L4", [("TU", "10:00", "11:40")]),
   ("L4+L5", [("TU", "11:00", "12:40")]),
   ("L5+L6", [("TU", "12:00", "13:30")]),
   ("L7+L8", [("WE", "08:00", "09:40")]),
   ("L8+L9", [("WE", "09:00", "10:40")]),
   ("L9+L10", [("WE", "10:00", "11:40")]),
   ("L10+L11", [("WE", "11:00", "12:40")]),
   ("L11+L12", [("WE", "12:00", "13:30")]),
   ("L13+L14", [("TH", "08:00", "09:40")]),
   ("L14+L15", [("TH", "09:00", "10:40")]),
   ("L15+L16", [("TH", "10:00", "11:40")]),
   ("L16+L17", [("TH", "11:00", "12:40")]),
   ("L17+L18", [("TH", "12:00", "13:30")]),
   ("L19+L20", [("FR", "08:00", "09:40")]),
   ("L20+L21", [("FR", "09:00", "10:40")]),
   ("L21+L22", [("FR", "10:00", "11:40")]),
   ("L22+L23", [("FR", "11:00", "12:40")]),
   ("L23+L24", [("FR", "12:00", "13:30")]),
   ("L25+L26", [("SA", "08:00", "09:40")]),
   ("L26+L27", [("SA", "09:00", "10:40")]),
   ("L27+L28", [("SA", "10:00", "11:40")]),
   ("L28+L29", [("SA", "11:00", "12:40")]),
   ("L29+L30", [("SA", "12:00", "13:30")]),
   ("L31+L32", [("TU", "14:00", "15:40")]),
   ("L32+L33", [("TU", "15:00", "16:40")]),
   ("L33+L34", [("TU", "16:00", "17:40")]),
   ("L34+L35", [("TU", "17:00", "18:40")]),
   ("L35+L36", [("TU", "18:00", "19:30")]),
   ("L37+L38", [("WE", "14:00", "15:40")]),
   ("L38+L39", [("WE", "15:00", "16:40")]),
   ("L39+L40", [("WE", "16:00", "17:40")]),
   ("L40+L41", [("WE", "17:00", "18:40")]),
   ("L41+L42", [("WE", "18:00", "19:30")]),
   ("L43+L44", [("TH", "14:00", "15:40")]),
   ("L44+L45", [("TH", "15:00", "16:40")]),
   ("L45+L46", [("TH", "16:00", "17:40")]),
   ("L46+L47", [("TH", "17:00", "18:40")]),
   ("L47+L48", [("TH", "18:00", "19:30")]),
   ("L49+L50", [("FR", "14:00", "15:40")]),
   ("L50+L51", [("FR", "15:00", "16:40")]),
   ("L51+L52", [("FR", "16:00", "17:40")]),
   ("L52+L53", [("FR", "17:00", "18:40")]),
   ("L53+L54", [("FR", "18:00", "19:30")]),
   ("L55+L56", [("SA", "14:00", "15:40")]),
   ("L56+L57", [("SA", "15:00", "16:40")]),
   ("L57+L58", [("SA", "16:00", "17:40")]),
   ("L58+L59", [("SA", "17:00", "18:40")]),
   ("L59+L60", [("SA", "18:00", "19:30")])]

/-- `weekday_map` from the source (two-letter day code → Monday-0 number). -/
def weekday_map (k : String) : Option Int :=
  if k = "MO" then some 0
  else if k = "TU" then some 1
  else if k = "WE" then some 2
  else if k = "TH" then some 3
  else if k = "FR" then some 4
  else if k = "SA" then some 5
  else if k = "SU" then some 6
  else none

/-! ## Data model -/

/-- A timetable row: the four columns consumed by `create_calendar_events`. -/
structure Row where
  course : String
  slot : String
  venue : String
  faculty : String
deriving Repr, DecidableEq

/-- The event body the source hands to `service.events().insert(...)`:
summary, location, description, start/end `dateTime` (here kept structured as
day number + hour + minute) with a named time zone, a recurrence-rule list,
and the reminder override minutes (`{"method": "popup", "minutes": m}`). -/
structure Event where
  summary : String
  location : String
  description : String
  startDate : Int
  startHour : Int
  startMinute : Int
  endDate : Int
  endHour : Int
  endMinute : Int
  timeZone : String
  recurrence : List String
  reminderMinutes : List Int
deriving Repr, DecidableEq

/-- A `st.warning(...)` signal emitted during row processing, kept
structurally (the source interpolates the key and row index into text). -/
inductive WarnMsg where
  | labNotFound (key : String)
  | theoryNotFound (tok : String)
deriving Repr, DecidableEq

/-- What one iteration of the row loop produces: the event bodies inserted,
the warnings shown, whether an exception was caught for the row
(`st.error` + `success = False`), whether the row hit a business-rule
`continue` (embedded project / NIL-ONL), and whether it hit the
lab-key-miss `continue`. -/
structure RowResult where
  events : List Event
  warnings : List WarnMsg
  raised : Bool
  skipped : Bool
  labMiss : Bool
deriving Repr, DecidableEq

/-- The outcome of `create_calendar_events`: all inserted event bodies in
order, the per-row results, the sequence of values sent to the progress bar
(initial `st.progress(0)`, the per-row updates, the final
`progress_bar.progress(100)`), and the returned success flag. -/
structure BatchResult where
  events : List Event
  rowResults : List RowResult
  progressReports : List Nat
  success : Bool
deriving Repr, DecidableEq

/-! ## The builder (lines 276-349 of the source) -/

/-- The token list: `[tok.strip().upper() for tok in slot_field.split("+")
if tok.strip()]`. -/
def slotTokens (slot_field : String) : List String :=
  (pySplit '+' slot_field).filterMap
    (fun tok => if (pyStrip tok).data.isEmpty then none else some (pyUpper (pyStrip tok)))

/-- Lines 290-301: the lab/theory decision.  `some key` means `is_lab` ended
true with `lab_key = key`; `none` means the row is treated as theory. -/
def classify_slot (slot_field : String) : Option String :=
  if (dictGet (pyUpper slot_field) lab_mapping).isSome then some (pyUpper slot_field)
  else
    (slotTokens slot_field).find?
      (fun tok => (dictGet tok lab_mapping).isSome || pyStartsWith tok "L")

/-- Lines 308-322 (and the identical 331-346) for one catalog triple:
parse the two `HH:MM` strings with `int`, look the day code up in
`weekday_map`, anchor the first occurrence, and build the event body.
`none` models the `ValueError`/`KeyError` raised by `map(int, ...)`,
`weekday_map[day_code]` or `datetime.replace` on out-of-range fields. -/
def buildEvent (summary location description tz : String) (rem : List Int)
    (semStart : Int) (day_code start_str end_str : String) : Option Event :=
  match parseTime? start_str, parseTime? end_str, weekday_map day_code with
    | some (sh, sm), some (eh, em), some wd =>
      if (decide (0 ≤ sh) && decide (sh ≤ 23) && decide (0 ≤ sm) && decide (sm ≤ 59) &&
          decide (0 ≤ eh) && decide (eh ≤ 23) && decide (0 ≤ em) && decide (em ≤ 59)) then
        let first_date := get_first_date_on_or_after semStart wd
        some { summary := summary, location := location, description := description,
               startDate := first_date, startHour := sh, startMinute := sm,
               endDate := first_date, endHour := eh, endMinute := em,
               timeZone := tz,
               recurrence := ["RRULE:FREQ=WEEKLY;BYDAY=" ++ day_code],
               reminderMinutes := rem }
      else none
    | _, _, _ => none

/-- The `for day_code, start_str, end_str in mapping:` loop.  Events built
before a raising triple were already inserted; the exception aborts the rest
of the loop and is caught at row level (second component `true`). -/
def buildTriples (summary location description tz : String) (rem : List Int)
    (semStart : Int) : List (String × String × String) → List Event × Bool
  | [] => ([], false)
  | (day_code, start_str, end_str) :: rest =>
    match buildEvent summary location description tz rem semStart
        day_code start_str end_str with
    | none => ([], true)
    | some e =>
      let p := buildTriples summary location description tz rem semStart rest
      (e :: p.1, p.2)

/-- The theory branch (`for tok in slot_tokens:`, lines 326-346): a missing
token warns and `continue`s the inner loop; a raising triple aborts the whole
row (third component `true`), keeping the events inserted so far. -/
def buildTheory (summary location description tz : String) (rem : List Int)
    (semStart : Int) : List String → List Event × List WarnMsg × Bool
  | [] => ([], [], false)
  | tok :: rest =>
    match dictGet tok theory_mapping with
    | none =>
      let p := buildTheory summary location description tz rem semStart rest
      (p.1, WarnMsg.theoryNotFound tok :: p.2.1, p.2.2)
    | some mapping =>
      let q := buildTriples summary location description tz rem semStart mapping
      if q.2 then (q.1, [], true)
      else
        let p := buildTheory summary location description tz rem semStart rest
        (q.1 ++ p.1, p.2.1, p.2.2)

/-- One iteration of `for idx, row in df.iterrows():` (lines 277-349):
strip the four fields, apply the two business-rule filters, classify the
slot field, and run the lab or theory branch; exceptions are caught by the
row-level `except`. -/
def create_events_for_row (tz : String) (rem : List Int) (semStart : Int)
    (row : Row) : RowResult :=
  let course := pyStrip row.course
  let slot_field := pyStrip row.slot
  let venue := pyStrip row.venue
  let faculty := pyStrip row.faculty
  if pyContains (pyUpper course) "EMBEDDED PROJECT" then
    ⟨[], [], false, true, false⟩
  else if pyContains (pyUpper venue) "NIL-ONL" then
    ⟨[], [], false, true, false⟩
  else
    let summary := course ++ " [" ++ slot_field ++ "]"
    match classify_slot slot_field with
    | some lab_key =>
      match dictGet lab_key lab_mapping with
      | none => ⟨[], [WarnMsg.labNotFound lab_key], false, false, true⟩
      | some mapping =>
        let q := buildTriples summary venue faculty tz rem semStart mapping
        ⟨q.1, [], q.2, false, false⟩
    | none =>
      let q := buildTheory summary venue faculty tz rem semStart (slotTokens slot_field)
      ⟨q.1, q.2.1, q.2.2, false, false⟩

/-- The row loop of `create_calendar_events`, recursing over the remaining
rows with the running positional index.  The progress update at lines
351-352 (`int(((idx + 1) / total_rows) * 100)`, capped at 100; the float
arithmetic is modelled by exact natural division, which agrees on the
claim-relevant facts: bounds, monotonicity, and hitting 100 exactly at
`idx + 1 = total_rows`) is skipped by the row-level `continue`s (business
skip, lab-key miss).  `success` is and-ed with `not raised` per row. -/
def runRows (tz : String) (rem : List Int) (semStart : Int) (total : Nat) :
    Nat → List Row → List Event × List RowResult × List Nat × Bool
  | _, [] => ([], [], [], true)
  | idx, row :: rest =>
    let r := create_events_for_row tz rem semStart row
    let p := runRows tz rem semStart total (idx + 1) rest
    let myReps : List Nat :=
      if r.skipped || r.labMiss then [] else [min ((100 * (idx + 1)) / total) 100]
    (r.events ++ p.1, r :: p.2.1, myReps ++ p.2.2.1, (!r.raised) && p.2.2.2)

/-- `create_calendar_events(service, df, semester_start_date, calendar_id,
timezone, notifications)` with the authenticated service and calendar id
abstracted away: the progress bar starts at 0, each row is processed in
order, and `progress_bar.progress(100)` runs after the loop. -/
def create_calendar_events (tz : String) (rem : List Int) (semStart : Int)
    (rows : List Row) : BatchResult :=
  let p := runRows tz rem semStart rows.length 0 rows
  ⟨p.1, p.2.1, 0 :: (p.2.2.1 ++ [100]), p.2.2.2⟩

/-! ## Spec-side definitions for the classification claim -/

/-- A slot classification: a lab keyed by one lookup key, or a theory field
whose tokens are independent theory keys. -/
inductive SlotClass where
  | lab (key : String)
  | theory (keys : List String)
deriving Repr, DecidableEq

/-- The classification the code computes, packaged: `classify_slot` plus the
token list the theory branch would resolve. -/
def classifyField (s : String) : SlotClass :=
  match classify_slot s with
  | some k => SlotClass.lab k
  | none => SlotClass.theory (slotTokens s)

/-- Spec wording: "Split on `+`, trim and uppercase each token; drop empty
tokens." -/
def slotTokensSpec (field : String) : List String :=
  (((pySplit '+' field).map pyStrip).filter (fun t => !t.data.isEmpty)).map pyUpper

/-- Spec wording: a key "exists in the Lab Catalog". -/
def isLabKey (k : String) : Bool := (dictGet k lab_mapping).isSome

/-- The classification algorithm as the spec words it: whole uppercased
field in the lab catalog → Lab on the whole field; else the first token that
is a lab-catalog key or begins with `L` → Lab on that token; else Theory
with every token an independent key. -/
def classifySpec (field : String) : SlotClass :=
  let tokens := slotTokensSpec field
  if isLabKey (pyUpper field) then SlotClass.lab (pyUpper field)
  else
    match tokens.find? (fun t => isLabKey t || pyStartsWith t "L") with
    | some t => SlotClass.lab t
    | none => SlotClass.theory tokens

/-! ## Sample data used by concrete witnesses and counterexamples

Day numbers follow the Monday-0 epoch convention, instantiated so that day 0
stands for 2025-01-27 (a Monday); then day 1 is 2025-01-28 (Tuesday), day 29
is 2025-02-25 (Tuesday) and the spec's exclusion window 2025-02-24–2025-03-03
is days 28–35. -/

/-- A plain theory row: Course "CSE101", Slot "A1", Venue "AB1". -/
def sampleRow : Row := ⟨"CSE101", "A1", "AB1", "Dr. Rao"⟩

/-- The first event body the source inserts for `sampleRow` with semester
start day 0 (2025-01-27): the Tuesday 09:00–09:50 meeting of slot A1. -/
def sampleEvent : Event :=
  { summary := "CSE101 [A1]", location := "AB1", description := "Dr. Rao",
    startDate := 1, startHour := 9, startMinute := 0,
    endDate := 1, endHour := 9, endMinute := 50, timeZone := "Asia/Kolkata",
    recurrence := ["RRULE:FREQ=WEEKLY;BYDAY=TU"], reminderMinutes := [10] }

/-- The only channel through which an inserted Google Calendar event body
could carry exclusion dates is an `EXDATE` line in its `recurrence` list;
collect such lines. -/
def eventExdateEntries (e : Event) : List String :=
  e.recurrence.filter (fun r => pyStartsWith r "EXDATE")

/-! ## Helper lemmas -/

lemma slotTokensSpec_eq (f : String) : slotTokensSpec f = slotTokens f := by
  unfold slotTokensSpec slotTokens
  induction pySplit '+' f with
  | nil => rfl
  | cons a l ih =>
    simp only [List.map_cons, List.filter_cons, List.filterMap_cons]
    cases h : (pyStrip a).data.isEmpty <;> simp [h, ih]

lemma dictGet_mem {α : Type} {k : String} {v : α} :
    ∀ {l : List (String × α)}, dictGet k l = some v → (k, v) ∈ l := by
  intro l
  induction l with
  | nil => intro h; simp [dictGet] at h
  | cons p rest ih =>
    intro h
    unfold dictGet at h
    split at h
    · rename_i heq
      cases p with
      | mk k' v' =>
        simp only [Option.some.injEq] at h
        subst h; subst heq
        exact List.mem_cons_self _ _
    · exact List.mem_cons_of_mem _ (ih h)

lemma buildEvent_some {s v f tz : String} {rem : List Int} {st : Int}
    {dc ss es : String} {e : Event}
    (h : buildEvent s v f tz rem st dc ss es = some e) :
    (∃ w, weekday_map dc = some w) ∧
    e.recurrence = ["RRULE:FREQ=WEEKLY;BYDAY=" ++ dc] := by
  unfold buildEvent at h
  split at h
  · rename_i sh sm eh em wd hss hes hwd
    split at h
    · cases h
      exact ⟨⟨wd, hwd⟩, rfl⟩
    · cases h
  · cases h

lemma mem_buildTriples {s v f tz : String} {rem : List Int} {st : Int} :
    ∀ {m : List (String × String × String)} {e : Event},
    e ∈ (buildTriples s v f tz rem st m).1 →
    ∃ dc ss es, (dc, ss, es) ∈ m ∧ buildEvent s v f tz rem st dc ss es = some e := by
  intro m
  induction m with
  | nil => intro e h; simp [buildTriples] at h
  | cons t rest ih =>
    obtain ⟨dc, ss, es⟩ := t
    intro e h
    rw [buildTriples] at h
    cases hb : buildEvent s v f tz rem st dc ss es with
    | none => simp only [hb] at h; simp at h
    | some e' =>
      simp only [hb, List.mem_cons] at h
      rcases h with h | h
      · exact ⟨dc, ss, es, List.mem_cons_self _ _, h ▸ hb⟩
      · obtain ⟨dc', ss', es', ht', hb'⟩ := ih h
        exact ⟨dc', ss', es', List.mem_cons_of_mem _ ht', hb'⟩

lemma mem_buildTheory {s v f tz : String} {rem : List Int} {st : Int} :
    ∀ {toks : List String} {e : Event},
    e ∈ (buildTheory s v f tz rem st toks).1 →
    ∃ dc ss es, buildEvent s v f tz rem st dc ss es = some e := by
  intro toks
  induction toks with
  | nil => intro e h; simp [buildTheory] at h
  | cons tok rest ih =>
    intro e h
    rw [buildTheory] at h
    cases hm : dictGet tok theory_mapping with
    | none =>
      simp only [hm] at h
      exact ih h
    | some mapping =>
      simp only [hm] at h
      by_cases hq : (buildTriples s v f tz rem st mapping).2 = true
      · simp only [hq, if_true] at h
        obtain ⟨dc, ss, es, _, hb⟩ := mem_buildTriples h
        exact ⟨dc, ss, es, hb⟩
      · rw [Bool.not_eq_true] at hq
        simp only [hq, Bool.false_eq_true, if_false, List.mem_append] at h
        rcases h with h | h
        · obtain ⟨dc, ss, es, _, hb⟩ := mem_buildTriples h
          exact ⟨dc, ss, es, hb⟩
        · exact ih h

lemma mem_row_events {tz : String} {rem : List Int} {st : Int} {row : Row}
    {e : Event} (h : e ∈ (create_events_for_row tz rem st row).events) :
    ∃ s v f dc ss es, buildEvent s v f tz rem st dc ss es = some e := by
  simp only [create_events_for_row] at h
  split at h
  · simp at h
  · split at h
    · simp at h
    · cases hc : classify_slot (pyStrip row.slot) with
      | some lab_key =>
        simp only [hc] at h
        cases hm : dictGet lab_key lab_mapping with
        | none => simp only [hm] at h; simp at h
        | some mapping =>
          simp only [hm] at h
          obtain ⟨dc, ss, es, _, hb⟩ := mem_buildTriples h
          exact ⟨_, _, _, dc, ss, es, hb⟩
      | none =>
        simp only [hc] at h
        obtain ⟨dc, ss, es, hb⟩ := mem_buildTheory h
        exact ⟨_, _, _, dc, ss, es, hb⟩

lemma rrule_not_exdate (dc : String) :
    pyStartsWith ("RRULE:FREQ=WEEKLY;BYDAY=" ++ dc) "EXDATE" = false := rfl

lemma rrule_no_until (dc : String) (w : Int) (h : weekday_map dc = some w) :
    pyContains ("RRULE:FREQ=WEEKLY;BYDAY=" ++ dc) "UNTIL" = false := by
  unfold weekday_map at h
  split_ifs at h with h1 h2 h3 h4 h5 h6 h7
  · subst h1; decide
  · subst h2; decide
  · subst h3; decide
  · subst h4; decide
  · subst h5; decide
  · subst h6; decide
  · subst h7; decide

/-! ## Catalog cleanliness: every catalog triple builds an event -/

/-- A catalog triple is well-formed: both time strings parse as `HH:MM`
with in-range fields and the day code is a `weekday_map` key — exactly the
conditions under which `buildEvent` succeeds. -/
def checkTriple : String × String × String → Bool
  | (day_code, start_str, end_str) =>
    match parseTime? start_str, parseTime? end_str, weekday_map day_code with
    | some (sh, sm), some (eh, em), some _ =>
      decide (0 ≤ sh) && decide (sh ≤ 23) && decide (0 ≤ sm) && decide (sm ≤ 59) &&
      decide (0 ≤ eh) && decide (eh ≤ 23) && decide (0 ≤ em) && decide (em ≤ 59)
    | _, _, _ => false

lemma buildEvent_isSome (s v f tz : String) (rem : List Int) (st : Int)
    (dc ss es : String) :
    (buildEvent s v f tz rem st dc ss es).isSome = checkTriple (dc, ss, es) := by
  unfold buildEvent checkTriple
  dsimp only
  cases hss : parseTime? ss with
  | none => rfl
  | some p =>
    obtain ⟨sh, sm⟩ := p
    cases hes : parseTime? es with
    | none => rfl
    | some q =>
      obtain ⟨eh, em⟩ := q
      cases hwd : weekday_map dc with
      | none => rfl
      | some wd =>
        simp only [apply_ite Option.isSome, Option.isSome_some, Option.isSome_none]
        split_ifs with hcond
        · exact hcond.symm
        · rw [Bool.not_eq_true] at hcond
          exact hcond.symm

/-- Every triple of the theory catalog is well-formed. -/
lemma theory_catalog_ok :
    theory_mapping.all (fun p => p.2.all checkTriple) = true := by decide

/-- Every triple of the lab catalog is well-formed. -/
lemma lab_catalog_ok :
    lab_mapping.all (fun p => p.2.all checkTriple) = true := by decide

lemma theory_lookup_clean {tok : String} {m : List (String × String × String)}
    (h : dictGet tok theory_mapping = some m) : m.all checkTriple = true := by
  have hm := dictGet_mem h
  have hall := theory_catalog_ok
  rw [List.all_eq_true] at hall
  simpa using hall _ hm

lemma lab_lookup_clean {k : String} {m : List (String × String × String)}
    (h : dictGet k lab_mapping = some m) : m.all checkTriple = true := by
  have hm := dictGet_mem h
  have hall := lab_catalog_ok
  rw [List.all_eq_true] at hall
  simpa using hall _ hm

lemma buildTriples_clean {s v f tz : String} {rem : List Int} {st : Int} :
    ∀ {m : List (String × String × String)}, m.all checkTriple = true →
    (buildTriples s v f tz rem st m).2 = false := by
  intro m
  induction m with
  | nil => intro _; rfl
  | cons t rest ih =>
    obtain ⟨dc, ss, es⟩ := t
    intro h
    simp only [List.all_cons, Bool.and_eq_true] at h
    have hsome : (buildEvent s v f tz rem st dc ss es).isSome = true := by
      rw [buildEvent_isSome]; exact h.1
    rw [Option.isSome_iff_exists] at hsome
    obtain ⟨e, he⟩ := hsome
    rw [buildTriples]
    simp only [he]
    exact ih h.2

/-- The events the theory branch inserts for one token: none when the token
misses the catalog, else the events of its catalog triples. -/
def theoryEventsFor (s v f tz : String) (rem : List Int) (st : Int)
    (tok : String) : List Event :=
  match dictGet tok theory_mapping with
  | none => []
  | some mapping => (buildTriples s v f tz rem st mapping).1

/-- With the shipped (well-formed) theory catalog, the theory branch never
raises: it emits the events of every resolving token in order and one
warning per missing token. -/
lemma buildTheory_clean {s v f tz : String} {rem : List Int} {st : Int} :
    ∀ toks, buildTheory s v f tz rem st toks =
      ((toks.map (theoryEventsFor s v f tz rem st)).flatten,
       (toks.filter (fun t => (dictGet t theory_mapping).isNone)).map
         WarnMsg.theoryNotFound,
       false) := by
  intro toks
  induction toks with
  | nil => rfl
  | cons tok rest ih =>
    rw [buildTheory]
    cases hm : dictGet tok theory_mapping with
    | none =>
      simp [ih, theoryEventsFor, hm, List.filter_cons]
    | some mapping =>
      have hq := @buildTriples_clean s v f tz rem st mapping (theory_lookup_clean hm)
      simp [ih, hq, theoryEventsFor, hm, List.filter_cons]

/-- The summary string of a row: `f"{course} [{slot_field}]"` on the
stripped fields. -/
def mkSummary (row : Row) : String :=
  pyStrip row.course ++ " [" ++ pyStrip row.slot ++ "]"

/-- With the shipped catalogs no row ever raises: every catalog triple
parses and builds. -/
lemma row_never_raises (tz : String) (rem : List Int) (st : Int) (row : Row) :
    (create_events_for_row tz rem st row).raised = false := by
  simp only [create_events_for_row]
  split
  · rfl
  · split
    · rfl
    · cases hc : classify_slot (pyStrip row.slot) with
      | some lab_key =>
        simp only [hc]
        cases hm : dictGet lab_key lab_mapping with
        | none => rfl
        | some mapping =>
          simp only [hm]
          exact buildTriples_clean (lab_lookup_clean hm)
      | none =>
        simp only [hc, buildTheory_clean]

/-! ## Batch driver characterization -/

lemma runRows_components (tz : String) (rem : List Int) (st : Int) (total : Nat) :
    ∀ (rows : List Row) (idx : Nat),
      (runRows tz rem st total idx rows).1 =
        (rows.map (fun r => (create_events_for_row tz rem st r).events)).flatten ∧
      (runRows tz rem st total idx rows).2.1 =
        rows.map (create_events_for_row tz rem st) ∧
      (runRows tz rem st total idx rows).2.2.2 =
        rows.all (fun r => !(create_events_for_row tz rem st r).raised) := by
  intro rows
  induction rows with
  | nil => intro idx; exact ⟨rfl, rfl, rfl⟩
  | cons row rest ih =>
    intro idx
    rw [runRows]
    obtain ⟨ih1, ih2, ih3⟩ := ih (idx + 1)
    refine ⟨?_, ?_, ?_⟩ <;> simp [ih1, ih2, ih3, List.all_cons]

lemma batch_success_always (tz : String) (rem : List Int) (st : Int)
    (rows : List Row) :
    (create_calendar_events tz rem st rows).success = true := by
  show (runRows tz rem st rows.length 0 rows).2.2.2 = true
  rw [(runRows_components tz rem st rows.length rows 0).2.2]
  rw [List.all_eq_true]
  intro r _
  simp [row_never_raises]

/-! ## Claims C1–C4 -/

/-- C1: for every raw SlotField string, the code's classification agrees
with the spec algorithm (whole-field lab-catalog hit → Lab on the whole
field; else first token that is a lab key or begins with `L` → Lab on that
token; else Theory with every token an independent key); in particular
"L1+L2" is Lab keyed "L1+L2", "A1+TA1" is Theory with keys "A1","TA1", and
"L99" is Lab keyed "L99" while "L99" is absent from the lab catalog. -/
theorem classification_matches_spec :
    (∀ s, classifyField s = classifySpec s) ∧
    classifyField "L1+L2" = SlotClass.lab "L1+L2" ∧
    classifyField "A1+TA1" = SlotClass.theory ["A1", "TA1"] ∧
    classifyField "L99" = SlotClass.lab "L99" ∧
    dictGet "L99" lab_mapping = none := by
  refine ⟨fun s => ?_, by decide, by decide, by decide, by decide⟩
  unfold classifyField classify_slot classifySpec
  simp only [isLabKey, slotTokensSpec_eq]
  split_ifs with h
  · rfl
  · cases hf : (slotTokens s).find?
        (fun t => (dictGet t lab_mapping).isSome || pyStartsWith t "L") <;>
      simp [hf]

/-- C2: for every date `d` and target weekday `w` with Monday=0…Sunday=6,
`get_first_date_on_or_after d w` lies in the closed interval `[d, d + 6]`
and its weekday equals `w` (the Lean function is total and pure by
construction). -/
theorem first_occurrence_in_week (d w : Int) (h0 : 0 ≤ w) (h6 : w ≤ 6) :
    d ≤ get_first_date_on_or_after d w ∧
    get_first_date_on_or_after d w ≤ d + 6 ∧
    dateWeekday (get_first_date_on_or_after d w) = w := by
  simp only [get_first_date_on_or_after, dateWeekday]
  split_ifs with h <;> refine ⟨by omega, by omega, by omega⟩

/-- Witness for C2 at the spec's example shape: start on a Wednesday
(day 2), target Tuesday (1); the result is six days later and a Tuesday. -/
theorem first_occurrence_in_week_witness :
    (2 : Int) ≤ get_first_date_on_or_after 2 1 ∧
    get_first_date_on_or_after 2 1 ≤ 2 + 6 ∧
    dateWeekday (get_first_date_on_or_after 2 1) = 1 :=
  first_occurrence_in_week 2 1 (by decide) (by decide)

/-- C3 counterexample: with semester start day 0 (2025-01-27, a Monday) and
the theory row CSE101/A1, the first inserted event is the Tuesday
09:00–09:50 one anchored on day 1 (2025-01-28), yet no inserted event for
the row carries a single exclusion-date (`EXDATE`) entry — in particular
none for 2025-02-25 09:00 despite the spec's exclusion window
2025-02-24–2025-03-03 (days 28–35): the builder takes no exclusion windows
at all. -/
theorem c3_no_exdate_counterexample :
    (create_events_for_row "Asia/Kolkata" [10] 0 sampleRow).events.head? =
      some sampleEvent ∧
    ((create_events_for_row "Asia/Kolkata" [10] 0 sampleRow).events.all
      (fun e => (eventExdateEntries e).isEmpty)) = true := by decide

/-- C3 (amended): every event body the builder emits carries no
exclusion-date entries whatsoever — exclusion windows are not part of the
builder's inputs, and the emitted recurrence list never holds an `EXDATE`
line. -/
theorem events_carry_no_exclusion_dates (tz : String) (rem : List Int)
    (st : Int) (row : Row) :
    ∀ e ∈ (create_events_for_row tz rem st row).events,
    eventExdateEntries e = [] := by
  intro e he
  obtain ⟨s, v, f, dc, ss, es, hb⟩ := mem_row_events he
  have h2 := buildEvent_some hb
  unfold eventExdateEntries
  rw [h2.2]
  simp [List.filter, rrule_not_exdate]

/-- Witness for the amended C3 at the concrete CSE101/A1 event. -/
theorem events_carry_no_exclusion_dates_witness :
    eventExdateEntries sampleEvent = [] :=
  events_carry_no_exclusion_dates "Asia/Kolkata" [10] 0 sampleRow sampleEvent
    (by decide)

/-- C4 counterexample: the recurrence rule of the concrete CSE101/A1 Tuesday
event is exactly `RRULE:FREQ=WEEKLY;BYDAY=TU`, which contains no `UNTIL`
component — the rule carries no until-date, and the builder is given no
semester end boundary to put there. -/
theorem c4_no_until_counterexample :
    ((create_events_for_row "Asia/Kolkata" [10] 0 sampleRow).events.head?.map
      Event.recurrence = some ["RRULE:FREQ=WEEKLY;BYDAY=TU"]) ∧
    pyContains "RRULE:FREQ=WEEKLY;BYDAY=TU" "UNTIL" = false := by decide

/-- C4 (amended): every emitted event's recurrence rule is weekly and
anchored to the triple's weekday code, but unbounded: the rule list is the
single string `RRULE:FREQ=WEEKLY;BYDAY=<day>` with no `UNTIL` component. -/
theorem recurrence_weekly_unbounded (tz : String) (rem : List Int) (st : Int)
    (row : Row) :
    ∀ e ∈ (create_events_for_row tz rem st row).events,
    ∃ dc w, weekday_map dc = some w ∧
      e.recurrence = ["RRULE:FREQ=WEEKLY;BYDAY=" ++ dc] ∧
      pyContains ("RRULE:FREQ=WEEKLY;BYDAY=" ++ dc) "UNTIL" = false := by
  intro e he
  obtain ⟨s, v, f, dc, ss, es, hb⟩ := mem_row_events he
  obtain ⟨⟨w, hw⟩, hrec⟩ := buildEvent_some hb
  exact ⟨dc, w, hw, hrec, rrule_no_until dc w hw⟩

/-- Witness for the amended C4 at the concrete CSE101/A1 event. -/
theorem recurrence_weekly_unbounded_witness :
    ∃ dc w, weekday_map dc = some w ∧
      sampleEvent.recurrence = ["RRULE:FREQ=WEEKLY;BYDAY=" ++ dc] ∧
      pyContains ("RRULE:FREQ=WEEKLY;BYDAY=" ++ dc) "UNTIL" = false :=
  recurrence_weekly_unbounded "Asia/Kolkata" [10] 0 sampleRow sampleEvent
    (by decide)

/-! ## Claims C5–C8, C10 -/

/-- A theory row with one resolvable token (A1) and one token missing from
the theory catalog (ZZ9). -/
def rowTheoryMiss : Row := ⟨"CSE104", "A1+ZZ9", "AB3", "Dr. Iyer"⟩

/-- A lab row whose single lab key L99 is absent from the lab catalog. -/
def rowLabMiss : Row := ⟨"CSE105", "L99", "AB4", "Dr. Mehta"⟩

/-- C5: a theory token missing from the theory catalog is skipped with a
warning while the row still emits the events of every resolving token; a
lab key missing from the lab catalog yields exactly one warning and zero
events for the row; neither miss raises (`raised = false`), and the batch
outcome stays `true` for such a row. -/
theorem slot_miss_is_warning (tz : String) (rem : List Int) (st : Int)
    (row : Row)
    (h1 : pyContains (pyUpper (pyStrip row.course)) "EMBEDDED PROJECT" = false)
    (h2 : pyContains (pyUpper (pyStrip row.venue)) "NIL-ONL" = false) :
    (classify_slot (pyStrip row.slot) = none →
      create_events_for_row tz rem st row =
        ⟨((slotTokens (pyStrip row.slot)).map
            (theoryEventsFor (mkSummary row) (pyStrip row.venue)
              (pyStrip row.faculty) tz rem st)).flatten,
         ((slotTokens (pyStrip row.slot)).filter
            (fun t => (dictGet t theory_mapping).isNone)).map
           WarnMsg.theoryNotFound,
         false, false, false⟩) ∧
    (∀ k, classify_slot (pyStrip row.slot) = some k →
      dictGet k lab_mapping = none →
      create_events_for_row tz rem st row =
        ⟨[], [WarnMsg.labNotFound k], false, false, true⟩) ∧
    (create_calendar_events tz rem st [row]).success = true := by
  refine ⟨?_, ?_, batch_success_always tz rem st [row]⟩
  · intro hc
    simp only [create_events_for_row, h1, h2, Bool.false_eq_true, if_false, hc]
    rw [buildTheory_clean]
    simp [mkSummary]
  · intro k hc hk
    simp only [create_events_for_row, h1, h2, Bool.false_eq_true, if_false, hc, hk]

/-- Witness for C5: the A1+ZZ9 row emits A1's events and warns on ZZ9; the
L99 row warns and emits nothing; both single-row batches succeed. -/
theorem slot_miss_is_warning_witness :
    (create_events_for_row "Asia/Kolkata" [10] 0 rowTheoryMiss =
      ⟨((slotTokens (pyStrip rowTheoryMiss.slot)).map
          (theoryEventsFor (mkSummary rowTheoryMiss) (pyStrip rowTheoryMiss.venue)
            (pyStrip rowTheoryMiss.faculty) "Asia/Kolkata" [10] 0)).flatten,
       ((slotTokens (pyStrip rowTheoryMiss.slot)).filter
          (fun t => (dictGet t theory_mapping).isNone)).map WarnMsg.theoryNotFound,
       false, false, false⟩) ∧
    (create_events_for_row "Asia/Kolkata" [10] 0 rowLabMiss =
      ⟨[], [WarnMsg.labNotFound "L99"], false, false, true⟩) ∧
    (create_calendar_events "Asia/Kolkata" [10] 0 [rowTheoryMiss]).success = true :=
  ⟨(slot_miss_is_warning "Asia/Kolkata" [10] 0 rowTheoryMiss
      (by decide) (by decide)).1 (by decide),
   (slot_miss_is_warning "Asia/Kolkata" [10] 0 rowLabMiss
      (by decide) (by decide)).2.1 "L99" (by decide) (by decide),
   (slot_miss_is_warning "Asia/Kolkata" [10] 0 rowTheoryMiss
      (by decide) (by decide)).2.2⟩

/-- C6 counterexample: give the triple loop a mapping whose first triple has
the malformed start time "XX" followed by a well-formed triple.  The claim
says the malformed triple is skipped and the remaining triple is still
processed without a row failure; instead the loop aborts with zero events —
the well-formed `("SA","12:00","12:50")` triple is never processed — and the
raised flag is set, which the row-level `except` records as a failure
(`success = False`). -/
theorem c6_malformed_time_counterexample :
    buildTriples "CSE101 [A1]" "AB1" "Dr. Rao" "Asia/Kolkata" [10] 0
      [("TU", "XX", "09:50"), ("SA", "12:00", "12:50")] = ([], true) := by decide

/-- C6 (amended): a triple whose start or end time fails to parse as `HH:MM`
raises: the builder stops at that triple, emits nothing for it or any later
triple of the same mapping, and reports the row as raised (the row-level
handler then records the failure and moves to the next row; with the
shipped catalogs every time string parses, so rows never hit this path). -/
theorem malformed_time_aborts_row (s v f tz : String) (rem : List Int)
    (st : Int) (dc ss es : String) (rest : List (String × String × String))
    (h : parseTime? ss = none ∨ parseTime? es = none) :
    buildTriples s v f tz rem st ((dc, ss, es) :: rest) = ([], true) := by
  have hnone : buildEvent s v f tz rem st dc ss es = none := by
    unfold buildEvent
    rcases h with h | h
    · rw [h]
    · cases hss : parseTime? ss with
      | none => rfl
      | some p => obtain ⟨sh, sm⟩ := p; rw [h]
  rw [buildTriples, hnone]

/-- Witness for the amended C6 at a concrete malformed start time. -/
theorem malformed_time_aborts_row_witness :
    buildTriples "CSE106 [B1]" "AB5" "Dr. Nair" "Asia/Kolkata" [5] 0
      [("TU", "1@:00", "10:50"), ("WE", "12:00", "12:50")] = ([], true) :=
  malformed_time_aborts_row "CSE106 [B1]" "AB5" "Dr. Nair" "Asia/Kolkata" [5] 0
    "TU" "1@:00" "10:50" [("WE", "12:00", "12:50")] (Or.inl (by decide))

/-- C7: a row whose Course contains "EMBEDDED PROJECT" or whose Venue
contains "NIL-ONL" (case-insensitively, via upper-casing) is skipped before
any slot resolution: the result is the skip record — zero events, no
warnings, not raised — independent of the Slot field entirely. -/
theorem business_rule_skip (tz : String) (rem : List Int) (st : Int)
    (row : Row)
    (h : pyContains (pyUpper (pyStrip row.course)) "EMBEDDED PROJECT" = true ∨
         pyContains (pyUpper (pyStrip row.venue)) "NIL-ONL" = true) :
    create_events_for_row tz rem st row = ⟨[], [], false, true, false⟩ := by
  simp only [create_events_for_row]
  rcases h with h | h
  · simp [h]
  · by_cases hc : pyContains (pyUpper (pyStrip row.course)) "EMBEDDED PROJECT" = true
    · simp [hc]
    · simp [hc, h]

/-- Witness for C7: the spec's example row (Course
"CSE101 EMBEDDED PROJECT" with a perfectly valid slot) produces the skip
record, and so does a lower-case "nil-onl" venue row. -/
theorem business_rule_skip_witness :
    create_events_for_row "Asia/Kolkata" [10] 0
      ⟨"CSE101 EMBEDDED PROJECT", "A1", "AB1", "Dr. Rao"⟩ =
      ⟨[], [], false, true, false⟩ ∧
    create_events_for_row "Asia/Kolkata" [10] 0
      ⟨"CSE107", "A1", "nil-onl", "Dr. Bose"⟩ =
      ⟨[], [], false, true, false⟩ :=
  ⟨business_rule_skip "Asia/Kolkata" [10] 0
      ⟨"CSE101 EMBEDDED PROJECT", "A1", "AB1", "Dr. Rao"⟩ (Or.inl (by decide)),
   business_rule_skip "Asia/Kolkata" [10] 0
      ⟨"CSE107", "A1", "nil-onl", "Dr. Bose"⟩ (Or.inr (by decide))⟩

/-- C8: the batch driver processes every row — the per-row results are
exactly the row function mapped over all rows in order and the emitted
events are their concatenation, so no row's failure prevents later rows —
and the returned success flag is false exactly when some row raised
(skips and warnings leave it true, since they are not `raised`). -/
theorem batch_never_aborts (tz : String) (rem : List Int) (st : Int)
    (rows : List Row) :
    (create_calendar_events tz rem st rows).rowResults =
      rows.map (create_events_for_row tz rem st) ∧
    (create_calendar_events tz rem st rows).events =
      (rows.map (fun r => (create_events_for_row tz rem st r).events)).flatten ∧
    (create_calendar_events tz rem st rows).success =
      rows.all (fun r => !(create_events_for_row tz rem st r).raised) := by
  obtain ⟨h1, h2, h3⟩ := runRows_components tz rem st rows.length rows 0
  exact ⟨h2, h1, h3⟩

/-- C10: when the whole slot field is not a lab-catalog key but some token
is a lab key or starts with `L`, the row is classified Lab keyed by the
first such token alone; if that token misses the lab catalog the row yields
one warning and zero events — every other token, valid theory codes
included, is discarded. -/
theorem lab_token_overrides (tz : String) (rem : List Int) (st : Int)
    (row : Row) (tok : String)
    (h1 : pyContains (pyUpper (pyStrip row.course)) "EMBEDDED PROJECT" = false)
    (h2 : pyContains (pyUpper (pyStrip row.venue)) "NIL-ONL" = false)
    (h3 : dictGet (pyUpper (pyStrip row.slot)) lab_mapping = none)
    (h4 : (slotTokens (pyStrip row.slot)).find?
        (fun t => (dictGet t lab_mapping).isSome || pyStartsWith t "L") = some tok)
    (h5 : dictGet tok lab_mapping = none) :
    classify_slot (pyStrip row.slot) = some tok ∧
    create_events_for_row tz rem st row =
      ⟨[], [WarnMsg.labNotFound tok], false, false, true⟩ := by
  have hcl : classify_slot (pyStrip row.slot) = some tok := by
    unfold classify_slot
    simp [h3, h4]
  refine ⟨hcl, ?_⟩
  simp only [create_events_for_row, h1, h2, Bool.false_eq_true, if_false, hcl, h5]

/-- Witness for C10 at the mixed field "A1+L31+L32": classification is Lab
keyed by "L31" (a single lab leg, not a catalog key), the valid theory token
A1 is discarded, and the row produces zero events plus one warning. -/
theorem lab_token_overrides_witness :
    classify_slot (pyStrip (Row.slot ⟨"CSE103", "A1+L31+L32", "AB1", "Dr. K"⟩)) =
      some "L31" ∧
    create_events_for_row "Asia/Kolkata" [10] 0
      ⟨"CSE103", "A1+L31+L32", "AB1", "Dr. K"⟩ =
      ⟨[], [WarnMsg.labNotFound "L31"], false, false, true⟩ :=
  lab_token_overrides "Asia/Kolkata" [10] 0
    ⟨"CSE103", "A1+L31+L32", "AB1", "Dr. K"⟩ "L31"
    (by decide) (by decide) (by decide) (by decide) (by decide)

/-! ## Claim C9: progress reporting -/

/-- The value the loop sends to the progress bar after row `k` of `total`
(1-based): `min(int((k / total) * 100), 100)` in exact arithmetic. -/
def progressValue (total k : Nat) : Nat := min ((100 * k) / total) 100

/-- `monoFromB lo l`: `l` is non-decreasing and its first element is at
least `lo`. -/
def monoFromB (lo : Nat) : List Nat → Bool
  | [] => true
  | x :: rest => decide (lo ≤ x) && monoFromB x rest

/-- Last element of a list, with a default for the empty list. -/
def lastD (d : Nat) : List Nat → Nat
  | [] => d
  | x :: rest => lastD x rest

/-- Number of upward transitions into the value 100 along a report sequence
whose value before the first report is `prev`: the number of times the
reported value becomes 100 while the previous value was below 100 — i.e.
how many times the bar "reaches 100%". -/
def transCountFrom (prev : Nat) : List Nat → Nat
  | [] => 0
  | x :: rest => (if prev < 100 ∧ x = 100 then 1 else 0) + transCountFrom x rest

/-- Transitions into 100 of a report sequence, starting below 100. -/
def transCount (l : List Nat) : Nat := transCountFrom 0 l

lemma monoFromB_weaken {lo hi : Nat} {l : List Nat} (hlh : lo ≤ hi)
    (h : monoFromB hi l = true) : monoFromB lo l = true := by
  cases l with
  | nil => rfl
  | cons x rest =>
    simp only [monoFromB, Bool.and_eq_true, decide_eq_true_eq] at h ⊢
    exact ⟨le_trans hlh h.1, h.2⟩

lemma monoFromB_append_100 {l : List Nat} :
    ∀ {lo : Nat}, monoFromB lo l = true →
    l.all (fun x => decide (x ≤ 100)) = true → lo ≤ 100 →
    monoFromB lo (l ++ [100]) = true := by
  induction l with
  | nil =>
    intro lo _ _ hlo
    simp [monoFromB, hlo]
  | cons x rest ih =>
    intro lo h hall hlo
    simp only [List.all_cons, Bool.and_eq_true, decide_eq_true_eq] at hall
    simp only [List.cons_append, monoFromB, Bool.and_eq_true,
      decide_eq_true_eq] at h ⊢
    exact ⟨h.1, ih h.2 hall.2 hall.1⟩

lemma lastD_append (a : Nat) : ∀ (l : List Nat) (d : Nat), lastD d (l ++ [a]) = a := by
  intro l
  induction l with
  | nil => intro d; rfl
  | cons x rest ih => intro d; exact ih x

lemma transCountFrom_zero_of_100 : ∀ {l : List Nat}, monoFromB 100 l = true →
    l.all (fun x => decide (x ≤ 100)) = true → transCountFrom 100 l = 0 := by
  intro l
  induction l with
  | nil => intro _ _; rfl
  | cons x rest ih =>
    intro h hall
    simp only [monoFromB, Bool.and_eq_true, decide_eq_true_eq] at h
    simp only [List.all_cons, Bool.and_eq_true, decide_eq_true_eq] at hall
    have hx : x = 100 := le_antisymm hall.1 h.1
    subst hx
    simp only [transCountFrom]
    rw [ih h.2 hall.2]
    simp

lemma transCountFrom_eq_one : ∀ (l : List Nat) (prev : Nat), prev < 100 →
    monoFromB prev l = true → l.all (fun x => decide (x ≤ 100)) = true →
    lastD prev l = 100 → transCountFrom prev l = 1 := by
  intro l
  induction l with
  | nil =>
    intro prev hp _ _ hl
    exact absurd hl (by simp only [lastD]; omega)
  | cons x rest ih =>
    intro prev hp h hall hl
    simp only [monoFromB, Bool.and_eq_true, decide_eq_true_eq] at h
    simp only [List.all_cons, Bool.and_eq_true, decide_eq_true_eq] at hall
    simp only [transCountFrom]
    by_cases hx : x = 100
    · subst hx
      rw [if_pos ⟨hp, rfl⟩, transCountFrom_zero_of_100 h.2 hall.2]
    · have hxlt : x < 100 := lt_of_le_of_ne hall.1 hx
      rw [if_neg (fun hcon => hx hcon.2)]
      rw [Nat.zero_add]
      exact ih x hxlt h.2 hall.2 hl

lemma runRows_reports_le (tz : String) (rem : List Int) (st : Int)
    (total : Nat) : ∀ (rows : List Row) (idx : Nat),
    (runRows tz rem st total idx rows).2.2.1.all
      (fun x => decide (x ≤ 100)) = true := by
  intro rows
  induction rows with
  | nil => intro idx; rfl
  | cons row rest ih =>
    intro idx
    rw [runRows]
    cases hb : ((create_events_for_row tz rem st row).skipped ||
        (create_events_for_row tz rem st row).labMiss)
    · simp [hb, ih (idx + 1), Nat.min_le_right]
    · simp [hb, ih (idx + 1)]

lemma runRows_reports_mono (tz : String) (rem : List Int) (st : Int)
    (total : Nat) : ∀ (rows : List Row) (idx : Nat),
    monoFromB (progressValue total (idx + 1))
      (runRows tz rem st total idx rows).2.2.1 = true := by
  intro rows
  induction rows with
  | nil => intro idx; rfl
  | cons row rest ih =>
    intro idx
    rw [runRows]
    have hstep : progressValue total (idx + 1) ≤ progressValue total (idx + 2) := by
      apply min_le_min _ (le_refl 100)
      exact Nat.div_le_div_right (Nat.mul_le_mul_left 100 (by omega))
    cases hb : ((create_events_for_row tz rem st row).skipped ||
        (create_events_for_row tz rem st row).labMiss)
    · simp only [hb, Bool.false_eq_true, if_false, List.singleton_append,
        monoFromB, Bool.and_eq_true, decide_eq_true_eq]
      refine ⟨le_refl _, ?_⟩
      exact monoFromB_weaken hstep (ih (idx + 1))
    · simp only [hb, if_true, List.nil_append]
      exact monoFromB_weaken hstep (ih (idx + 1))

/-- C9: the progress-bar report sequence of a batch always stays within
0–100, is monotonically non-decreasing, ends at 100, and reaches 100
exactly once (one upward transition into 100, counting the duplicate final
`progress(100)` as a stay, not a new reach); a batch of zero rows reports
exactly `[0, 100]` and returns overall success `true`. -/
theorem progress_reaches_100_once (tz : String) (rem : List Int) (st : Int)
    (rows : List Row) :
    (create_calendar_events tz rem st rows).progressReports.all
      (fun x => decide (x ≤ 100)) = true ∧
    monoFromB 0 (create_calendar_events tz rem st rows).progressReports = true ∧
    lastD 0 (create_calendar_events tz rem st rows).progressReports = 100 ∧
    transCount (create_calendar_events tz rem st rows).progressReports = 1 ∧
    create_calendar_events tz rem st [] = ⟨[], [], [0, 100], true⟩ := by
  have hle := runRows_reports_le tz rem st rows.length rows 0
  have hmono0 : monoFromB 0 (runRows tz rem st rows.length 0 rows).2.2.1 = true :=
    monoFromB_weaken (Nat.zero_le _) (runRows_reports_mono tz rem st rows.length rows 0)
  have hreps : (create_calendar_events tz rem st rows).progressReports =
      0 :: ((runRows tz rem st rows.length 0 rows).2.2.1 ++ [100]) := rfl
  have happle : ((runRows tz rem st rows.length 0 rows).2.2.1 ++ [100]).all
      (fun x => decide (x ≤ 100)) = true := by
    rw [List.all_append]
    simp [hle]
  have happmono : monoFromB 0
      ((runRows tz rem st rows.length 0 rows).2.2.1 ++ [100]) = true :=
    monoFromB_append_100 hmono0 hle (Nat.zero_le 100)
  refine ⟨?_, ?_, ?_, ?_, rfl⟩
  · rw [hreps, List.all_cons]
    simp [happle]
  · rw [hreps]
    simp only [monoFromB, Bool.and_eq_true, decide_eq_true_eq]
    exact ⟨le_refl 0, happmono⟩
  · rw [hreps]
    show lastD 0 ((runRows tz rem st rows.length 0 rows).2.2.1 ++ [100]) = 100
    exact lastD_append 100 _ 0
  · rw [transCount, hreps]
    simp only [transCountFrom]
    rw [if_neg (by omega)]
    rw [Nat.zero_add]
    refine transCountFrom_eq_one _ 0 (by omega) happmono happle ?_
    exact lastD_append 100 _ 0

end TTSched
